import Mathlib

/-!
Verification of the net_pilot core against its specification.

The embedding translates the Python modules `gui/polling_manager.py` and
`logic/command_utils.py` into Lean. Python floats used for byte counters and
timestamps are modelled as rationals; machine behaviour of these values is not
at issue in any claim. Python dicts are modelled as insertion-ordered
association lists with the lookup/insert semantics of the source. Calls into
the Python standard library (json.loads, subprocess, codecs) are external to
the repository: their results are passed to the embedded functions as
parameters, with the failure modes the source handles represented by Option
and sum types.
-/

set_option maxHeartbeats 1000000

namespace NetPilot

/-- A JSON-decodable Python value, as produced by json.loads and stored in the
statistics dicts of `polling_manager.py`. `PyVal.none` stands both for the
Python value None and for the result of a `.get` on a missing key, which the
source treats identically (both fail the isinstance number check). -/
inductive PyVal where
  | none : PyVal
  | bool : Bool → PyVal
  | num : ℚ → PyVal
  | str : String → PyVal
  | list : List PyVal → PyVal
  | dict : List (String × PyVal) → PyVal

/-- Python truthiness (`bool(v)`) for the values above, used by the source in
`stat.get(k) or 0` and `if calculated_speeds:`. -/
def pyTruthy : PyVal → Bool
  | PyVal.none => false
  | PyVal.bool b => b
  | PyVal.num q => decide (q ≠ 0)
  | PyVal.str s => decide (s ≠ "")
  | PyVal.list l => !l.isEmpty
  | PyVal.dict d => !d.isEmpty

/-- Python `isinstance(v, (int, float))`. A Python bool is an int, so it
counts as numeric. -/
def pyIsNumber : PyVal → Bool
  | PyVal.num _ => true
  | PyVal.bool _ => true
  | _ => false

/-- The numeric value of a Python number (booleans are 1 and 0); only applied
under a `pyIsNumber` guard, mirroring the arithmetic in the source. -/
def toQ : PyVal → ℚ
  | PyVal.num q => q
  | PyVal.bool b => if b then 1 else 0
  | _ => 0

/-- First-match lookup in an insertion-ordered dict, mirroring the Python
`k in d` test plus `d[k]` access (dict keys are unique, so first match is the
match). -/
def dictLookup {β : Type} : List (String × β) → String → Option β
  | [], _ => Option.none
  | (k, v) :: rest, key => if k = key then some v else dictLookup rest key

/-- Python dict insertion semantics: an existing key keeps its position and
gets the new value, a new key is appended. -/
def dictInsert {β : Type} (d : List (String × β)) (k : String) (v : β) : List (String × β) :=
  if (d.map Prod.fst).contains k then d.map (fun e => if e.1 = k then (k, v) else e)
  else d ++ [(k, v)]

/-- The per-adapter counter dict `{received: ..., sent: ...}` built in
`_calculate_current_speeds`. A missing key reads as `PyVal.none` via `.get`. -/
structure Counters where
  received : PyVal
  sent : PyVal

/-- A CounterSample: adapter name to counter dict, insertion ordered. -/
abbrev Sample : Type := List (String × Counters)

/-- A per-adapter speed dict `{download: ..., upload: ...}` in bytes/sec. -/
structure Speed where
  download : ℚ
  upload : ℚ
deriving DecidableEq

/-- The `all(isinstance(v, (int, float)) for v in [...])` guard of
`_calculate_speed_delta`, in the order of the source list. -/
def four_numeric (s l : Counters) : Bool :=
  pyIsNumber s.received && pyIsNumber l.received && pyIsNumber s.sent && pyIsNumber l.sent

/-- The rate dict built for one adapter in `_calculate_speed_delta`: each
direction divides its raw delta by the time delta, except that a negative raw
delta (counter reset) yields 0. -/
def speed_of (s l : Counters) (time_delta : ℚ) : Speed :=
  let dl_delta := toQ s.received - toQ l.received
  let ul_delta := toQ s.sent - toQ l.sent
  { download := if 0 ≤ dl_delta then dl_delta / time_delta else 0
    upload := if 0 ≤ ul_delta then ul_delta / time_delta else 0 }

/-- The body of the `for name, stats in current_stats.items()` loop of
`_calculate_speed_delta`: an adapter contributes an entry when its name is in
the previous sample and all four counters are numeric. -/
def speed_entry (last_stats : Sample) (time_delta : ℚ) (e : String × Counters) :
    Option (String × Speed) :=
  match dictLookup last_stats e.1 with
  | Option.none => Option.none
  | some last =>
    if four_numeric e.2 last then some (e.1, speed_of e.2 last time_delta)
    else Option.none

/-- `PollingManager._calculate_speed_delta` from `gui/polling_manager.py`. -/
def calculate_speed_delta (current_stats last_stats : Sample) (time_delta : ℚ) :
    List (String × Speed) :=
  if last_stats.isEmpty || current_stats.isEmpty || decide (time_delta ≤ 0) then []
  else current_stats.filterMap (speed_entry last_stats time_delta)

/-! Output decoder: `_safe_decode` from `logic/command_utils.py`. Byte strings
are lists of naturals below 256; decoded text is a list of characters. A
decoder that can raise UnicodeDecodeError is modelled as returning Option. -/

/-- Whether a byte is a UTF-8 continuation byte. -/
def utf8Cont (b : Nat) : Prop := 0x80 ≤ b ∧ b < 0xC0

instance (b : Nat) : Decidable (utf8Cont b) := by
  unfold utf8Cont
  infer_instance

/-- Strict UTF-8 decoding with explicit fuel (one unit per decoded character
suffices, so the length of the input is always enough). Overlong encodings,
surrogates, out-of-range code points and truncated sequences are rejected,
matching the strict mode of the Python utf-8 codec. -/
def utf8DecodeFuel : Nat → List Nat → Option (List Char)
  | _, [] => some []
  | 0, _ :: _ => Option.none
  | fuel + 1, b :: bs =>
    if b < 0x80 then
      match utf8DecodeFuel fuel bs with
      | some cs => some (Char.ofNat b :: cs)
      | Option.none => Option.none
    else if b < 0xC2 then Option.none
    else if b < 0xE0 then
      match bs with
      | b1 :: rest =>
        if utf8Cont b1 then
          match utf8DecodeFuel fuel rest with
          | some cs => some (Char.ofNat ((b - 0xC0) * 0x40 + (b1 - 0x80)) :: cs)
          | Option.none => Option.none
        else Option.none
      | [] => Option.none
    else if b < 0xF0 then
      match bs with
      | b1 :: b2 :: rest =>
        let cp := (b - 0xE0) * 0x1000 + (b1 - 0x80) * 0x40 + (b2 - 0x80)
        if utf8Cont b1 ∧ utf8Cont b2 ∧ 0x800 ≤ cp ∧ ¬(0xD800 ≤ cp ∧ cp ≤ 0xDFFF) then
          match utf8DecodeFuel fuel rest with
          | some cs => some (Char.ofNat cp :: cs)
          | Option.none => Option.none
        else Option.none
      | _ => Option.none
    else if b < 0xF5 then
      match bs with
      | b1 :: b2 :: b3 :: rest =>
        let cp := (b - 0xF0) * 0x40000 + (b1 - 0x80) * 0x1000 + (b2 - 0x80) * 0x40 + (b3 - 0x80)
        if utf8Cont b1 ∧ utf8Cont b2 ∧ utf8Cont b3 ∧ 0x10000 ≤ cp ∧ cp ≤ 0x10FFFF then
          match utf8DecodeFuel fuel rest with
          | some cs => some (Char.ofNat cp :: cs)
          | Option.none => Option.none
        else Option.none
      | _ => Option.none
    else Option.none

/-- `bytes.decode("utf-8")` in strict mode: some decoded text, or none for the
UnicodeDecodeError the source catches. -/
def utf8_decode (bs : List Nat) : Option (List Char) := utf8DecodeFuel bs.length bs

/-- The whitespace characters stripped by Python str.strip with no argument. -/
def pyIsSpace (c : Char) : Bool :=
  ([0x09, 0x0A, 0x0B, 0x0C, 0x0D, 0x1C, 0x1D, 0x1E, 0x1F, 0x20, 0x85, 0xA0,
    0x1680, 0x2000, 0x2001, 0x2002, 0x2003, 0x2004, 0x2005, 0x2006, 0x2007,
    0x2008, 0x2009, 0x200A, 0x2028, 0x2029, 0x202F, 0x205F, 0x3000].map Char.ofNat).contains c

/-- Python str.strip(): drop leading and trailing whitespace. -/
def pyStrip (s : List Char) : List Char :=
  ((s.dropWhile pyIsSpace).reverse.dropWhile pyIsSpace).reverse

/-- `bytes.decode("ascii", errors="replace")`: bytes at or above 0x80 become
the replacement character U+FFFD; this decoder never fails. -/
def ascii_replace_decode (bs : List Nat) : List Char :=
  bs.map (fun b => if b < 0x80 then Char.ofNat b else Char.ofNat 0xFFFD)

/-- The final `.replace` of `_safe_decode`: U+FFFD becomes a question mark. -/
def replacementToQmark (s : List Char) : List Char :=
  s.map (fun c => if c = Char.ofNat 0xFFFD then Char.ofNat 0x3F else c)

/-- `_safe_decode` from `logic/command_utils.py`. The oem decoder is the
decoder of the platform console code page (the Python "oem" codec, available
on the Windows hosts this program targets); it varies by machine, so it is a
parameter, returning none where it would raise UnicodeDecodeError. The
attempts are utf-8 strict, then oem, then ascii with replacement, each
stripped; the ascii fallback additionally turns replacement characters into
question marks. Empty (or absent) input returns the empty string at once. -/
def safe_decode (oem : List Nat → Option (List Char)) (byte_string : List Nat) : List Char :=
  if byte_string.isEmpty then []
  else
    match utf8_decode byte_string with
    | some s => pyStrip s
    | Option.none =>
      match oem byte_string with
      | some s => pyStrip s
      | Option.none => replacementToQmark (pyStrip (ascii_replace_decode byte_string))

/-! Process Runner: `run_system_command` from `logic/command_utils.py`. The
subprocess interaction is external; its outcome (FileNotFoundError from Popen,
TimeoutExpired from communicate, or a completed process with an exit code and
raw output bytes) is an input. A raised NetworkManagerError is the error side
of Except. -/

/-- The exception `exceptions.NetworkManagerError` (message plus optional
machine-readable code; `run_system_command` always raises it with no code). -/
structure NetworkManagerError where
  message : String
  code : Option String
deriving DecidableEq

/-- `subprocess.CompletedProcess` as returned on the success path: the
argument vector, the exit code, and the raw captured bytes. -/
structure CompletedProcess where
  args : List String
  returncode : Int
  stdout : List Nat
  stderr : List Nat
deriving DecidableEq

/-- Outcome of the spawned subprocess, as seen by `run_system_command`. -/
inductive ProcessOutcome where
  | fileNotFound : ProcessOutcome
  | timedOut : ProcessOutcome
  | completed (returncode : Int) (stdout stderr : List Nat) : ProcessOutcome

/-- `run_system_command` from `logic/command_utils.py`. The command list is
nonempty in the source (headD covers the impossible empty case). With check
set and a non-zero exit code, the manually raised CalledProcessError is caught
and rewrapped: the user-facing message prefers decoded stderr, then decoded
stdout, then a fixed fallback. TimeoutExpired and FileNotFoundError are
rewrapped with messages naming the timeout and the program. -/
def run_system_command (oem : List Nat → Option (List Char)) (command : List String)
    (prefixMsg : String) (check : Bool) (timeout : Nat) :
    ProcessOutcome → Except NetworkManagerError CompletedProcess
  | ProcessOutcome.completed rc out err =>
    if check = true ∧ rc ≠ 0 then
      Except.error ⟨prefixMsg ++ ": " ++
        (if String.mk (safe_decode oem err) ≠ "" then String.mk (safe_decode oem err)
         else if String.mk (safe_decode oem out) ≠ "" then String.mk (safe_decode oem out)
         else "An unknown error occurred."), Option.none⟩
    else Except.ok ⟨command, rc, out, err⟩
  | ProcessOutcome.timedOut =>
    Except.error ⟨"The operation timed out after " ++ toString timeout ++ " seconds: " ++
      String.intercalate " " command, Option.none⟩
  | ProcessOutcome.fileNotFound =>
    Except.error ⟨"Command \x27" ++ command.headD "" ++
      "\x27 not found. Is it in the system\x27s PATH?", Option.none⟩

/-! Polling manager state and speed calculation, from `gui/polling_manager.py`.
The mutable fields `last_stats`, `last_time` and `is_running` of the
PollingManager instance form the state threaded through the functions. -/

/-- The mutable state of the PollingManager used by the speed path. -/
structure PMState where
  lastStats : Sample
  lastTime : ℚ
  isRunning : Bool

/-- `stat.get(k) or 0`: a missing or falsy counter value becomes the number 0,
any truthy value is kept as is (even a non-numeric one, which the delta
calculation later skips). -/
def pyOr0 (v : PyVal) : PyVal := if pyTruthy v then v else PyVal.num 0

/-- One step of the dict comprehension in `_calculate_current_speeds`:
elements that are not dicts or lack a Name key are skipped; a kept element
contributes its ReceivedBytes/SentBytes (defaulted through `or 0`) under its
name. The source would accept a non-string Name as a dict key when hashable
and raise TypeError when not; PowerShell adapter names are strings, and the
non-string case is folded into the caught-TypeError result here. -/
def stat_entry (acc : Option Sample) (v : PyVal) : Option Sample :=
  match acc with
  | Option.none => Option.none
  | some d =>
    match v with
    | PyVal.dict fields =>
      match dictLookup fields "Name" with
      | Option.none => some d
      | some (PyVal.str n) =>
        some (dictInsert d n
          ⟨pyOr0 ((dictLookup fields "ReceivedBytes").getD PyVal.none),
           pyOr0 ((dictLookup fields "SentBytes").getD PyVal.none)⟩)
      | some _ => Option.none
    | _ => some d

/-- Normalisation of the parsed JSON in `_calculate_current_speeds`: a dict is
wrapped into a one-element list, a list is iterated, a string iterates its
characters (each a one-character string, never a dict, so all skipped), and
iterating any other value raises the TypeError the source catches (none). -/
def stats_from_json : PyVal → Option Sample
  | PyVal.dict fields => ([PyVal.dict fields]).foldl stat_entry (some [])
  | PyVal.list l => l.foldl stat_entry (some [])
  | PyVal.str s => (s.data.map (fun c => PyVal.str (String.mk [c]))).foldl stat_entry (some [])
  | _ => Option.none

/-- `PollingManager._calculate_current_speeds`. The first argument past the
state is the result of `json.loads` on the streamed line, with none standing
for the JSONDecodeError (or the TypeError of a non-iterable value) the source
catches: that path returns an empty dict before the state update. On success
the speeds are computed against the retained sample and the state advances to
the new sample and timestamp. -/
def calculate_current_speeds (st : PMState) (parsed : Option PyVal) (current_time : ℚ) :
    PMState × List (String × Speed) :=
  match parsed.bind stats_from_json with
  | Option.none => (st, [])
  | some current_stats =>
    let time_delta := current_time - st.lastTime
    let speeds := calculate_speed_delta current_stats st.lastStats time_delta
    ({ st with lastStats := current_stats, lastTime := current_time }, speeds)

/-- One pass of the body of the while loop in `_speed_poll_loop_powershell`
for a line read from the stream: an empty line does nothing; with no selected
adapter the pass sleeps and continues without touching the speed state; with a
selected adapter the speeds are calculated (updating the state) and a
speed_update event is emitted when the resulting dict is nonempty. -/
def speed_poll_iteration (st : PMState) (line : String) (selected : Option String)
    (parsed : Option PyVal) (now : ℚ) : PMState × Option (List (String × Speed)) :=
  if line = "" then (st, Option.none)
  else
    match selected with
    | Option.none => (st, Option.none)
    | some _ =>
      let r := calculate_current_speeds st parsed now
      (r.1, if r.2.isEmpty then Option.none else some r.2)

/-! Loop models. Each loop is run over a finite trace of per-iteration
environment inputs (what the external fetches did); the loop condition is
checked at the top of every pass exactly as in the source. -/

/-- What the fetch work of one `_poll_loop` iteration did: completed, or
raised an exception with the given message. -/
inductive FetchOutcome where
  | ok : FetchOutcome
  | raises (msg : String) : FetchOutcome

/-- The state of the slow `_poll_loop`: the loop-local first-iteration flag,
a count of iterations that attempted their fetches, the error log, and the
running flag the while condition reads. -/
structure PollState where
  isRunning : Bool
  initialLoadDone : Bool
  fetchesAttempted : Nat
  logs : List String
deriving DecidableEq

/-- The try/except/finally body of `_poll_loop`: an iteration that completes
marks the initial load done; an iteration whose fetch raises is caught by the
`except Exception` handler, which logs and falls through to the finally sleep.
Neither path touches the running flag, and both count as an attempted fetch. -/
def poll_loop_iteration (st : PollState) (o : FetchOutcome) : PollState :=
  match o with
  | FetchOutcome.ok =>
    { st with initialLoadDone := true, fetchesAttempted := st.fetchesAttempted + 1 }
  | FetchOutcome.raises m =>
    { st with fetchesAttempted := st.fetchesAttempted + 1, logs := st.logs ++ [m] }

/-- `_poll_loop` run over a finite trace: `while self.is_running` is checked
before each iteration. -/
def poll_loop_run (st : PollState) : List FetchOutcome → PollState
  | [] => st
  | o :: rest => if st.isRunning then poll_loop_run (poll_loop_iteration st o) rest else st

/-- Environment input for one pass of `_speed_poll_loop_powershell`: a line
read from the stream (with its parse result and the selected-adapter signal
and clock at that moment), a readline call that raises, or the PowerShell
process having exited (its poll() is no longer None). -/
inductive SpeedIterInput where
  | readLine (line : String) (selected : Option String) (parsed : Option PyVal) (now : ℚ) :
      SpeedIterInput
  | readRaises (msg : String) : SpeedIterInput
  | processExited : SpeedIterInput

/-- Result of running the speed loop over a trace: still looping, exited
through its while condition, or terminated by an uncaught exception (the loop
body has no try/except, so a raise propagates out of the thread). -/
inductive SpeedLoopResult where
  | looping (st : PMState) : SpeedLoopResult
  | exited (st : PMState) : SpeedLoopResult
  | crashed (msg : String) (st : PMState) : SpeedLoopResult

/-- `_speed_poll_loop_powershell` run over a finite trace. The while condition
`self.is_running and process.poll() is None` is checked at the top of each
pass; an exception from the read is not caught anywhere in the loop and ends
the run. -/
def speed_loop_run (st : PMState) : List SpeedIterInput → SpeedLoopResult
  | [] => SpeedLoopResult.looping st
  | input :: rest =>
    if st.isRunning then
      match input with
      | SpeedIterInput.processExited => SpeedLoopResult.exited st
      | SpeedIterInput.readRaises m => SpeedLoopResult.crashed m st
      | SpeedIterInput.readLine line sel parsed now =>
        speed_loop_run (speed_poll_iteration st line sel parsed now).1 rest
    else SpeedLoopResult.exited st

/-! Thread startup: `start_polling_threads` from `gui/polling_manager.py`. -/

/-- The two daemon threads `start_polling_threads` spawns. -/
inductive ThreadKind where
  | pollLoop : ThreadKind
  | speedLoop : ThreadKind
deriving DecidableEq

/-- The state read and written by `start_polling_threads`: the running flag
and the accumulated list of spawned threads. -/
structure ManagerState where
  isRunning : Bool
  spawned : List ThreadKind
deriving DecidableEq

/-- `start_polling_threads`: an early return when already running; otherwise
the flag is set and the two polling threads are started. -/
def start_polling_threads (st : ManagerState) : ManagerState :=
  if st.isRunning then st
  else { isRunning := true,
         spawned := st.spawned ++ [ThreadKind.pollLoop, ThreadKind.speedLoop] }

/-! Helper lemmas about dict lookup and the delta calculation. -/

theorem dictLookup_mem {β : Type} {d : List (String × β)} {k : String} {v : β}
    (h : dictLookup d k = some v) : (k, v) ∈ d := by
  induction d with
  | nil => exact absurd h (by simp [dictLookup])
  | cons e rest ih =>
    obtain ⟨k', v'⟩ := e
    simp only [dictLookup] at h
    split at h
    · rename_i heq
      injection h with h2
      subst h2
      subst heq
      exact List.mem_cons_self _ _
    · exact List.mem_cons_of_mem _ (ih h)

theorem dictLookup_ne_nil {β : Type} {d : List (String × β)} {k : String} {v : β}
    (h : dictLookup d k = some v) : d ≠ [] := by
  intro hd
  subst hd
  simp [dictLookup] at h

theorem speed_entry_none {last_stats : Sample} {time_delta : ℚ} {e : String × Counters}
    (h : dictLookup last_stats e.1 = Option.none) :
    speed_entry last_stats time_delta e = Option.none := by
  unfold speed_entry
  rw [h]

theorem speed_entry_some {last_stats : Sample} {time_delta : ℚ} {e : String × Counters}
    {l : Counters} (h : dictLookup last_stats e.1 = some l) :
    speed_entry last_stats time_delta e =
      if four_numeric e.2 l = true then some (e.1, speed_of e.2 l time_delta)
      else Option.none := by
  unfold speed_entry
  rw [h]

theorem speed_entry_eq_some {last_stats : Sample} {time_delta : ℚ} {e : String × Counters}
    {r : String × Speed} :
    speed_entry last_stats time_delta e = some r ↔
      ∃ l, dictLookup last_stats e.1 = some l ∧ four_numeric e.2 l = true ∧
        r = (e.1, speed_of e.2 l time_delta) := by
  cases h : dictLookup last_stats e.1 with
  | none =>
    rw [speed_entry_none h]
    simp
  | some l =>
    rw [speed_entry_some h]
    by_cases hf : four_numeric e.2 l = true
    · rw [if_pos hf]
      constructor
      · intro hs
        exact ⟨l, rfl, hf, (Option.some.inj hs).symm⟩
      · rintro ⟨l', hl', -, hr⟩
        cases Option.some.inj hl'
        rw [hr]
    · rw [if_neg hf]
      constructor
      · intro hs
        exact Option.noConfusion hs
      · rintro ⟨l', hl', hf', -⟩
        cases Option.some.inj hl'
        exact absurd hf' hf

theorem mem_calculate_speed_delta {current_stats last_stats : Sample} {time_delta : ℚ}
    {p : String × Speed} :
    p ∈ calculate_speed_delta current_stats last_stats time_delta ↔
      (last_stats ≠ [] ∧ current_stats ≠ [] ∧ 0 < time_delta) ∧
      ∃ e ∈ current_stats, speed_entry last_stats time_delta e = some p := by
  unfold calculate_speed_delta
  split
  · rename_i hcond
    rw [Bool.or_eq_true, Bool.or_eq_true] at hcond
    constructor
    · intro h
      exact absurd h (List.not_mem_nil p)
    · rintro ⟨⟨hl, hc, hdt⟩, -⟩
      rcases hcond with (h | h) | h
      · exact (hl (List.isEmpty_iff.mp h)).elim
      · exact (hc (List.isEmpty_iff.mp h)).elim
      · exact absurd (of_decide_eq_true h) (not_le.mpr hdt)
  · rename_i hcond
    rw [Bool.or_eq_true, Bool.or_eq_true] at hcond
    push_neg at hcond
    obtain ⟨⟨hl, hc⟩, hdt⟩ := hcond
    have h1 : last_stats ≠ [] := fun h => hl (by simp [h])
    have h2 : current_stats ≠ [] := fun h => hc (by simp [h])
    have h3 : 0 < time_delta := by
      by_contra hle
      exact hdt (decide_eq_true (not_lt.mp hle))
    rw [List.mem_filterMap]
    exact ⟨fun h => ⟨⟨h1, h2, h3⟩, h⟩, fun h => h.2⟩

/-- Claim C1: for samples sharing an adapter and positive dt, a negative raw
delta in a direction yields rate exactly 0 for that direction, never a
negative rate, with the two directions independent; in the concrete rollover
scenario [received 5000, sent 1000] to [received 1000, sent 1500] over one
second the result is download 0 and upload 500. -/
theorem speed_delta_rollover_zero :
    (∀ (current_stats last_stats : Sample) (time_delta : ℚ) (name : String) (sp : Speed),
      (name, sp) ∈ calculate_speed_delta current_stats last_stats time_delta →
      0 ≤ sp.download ∧ 0 ≤ sp.upload ∧
      ∃ s l, (name, s) ∈ current_stats ∧ dictLookup last_stats name = some l ∧
        (toQ s.received - toQ l.received < 0 → sp.download = 0) ∧
        (toQ s.sent - toQ l.sent < 0 → sp.upload = 0)) ∧
    calculate_speed_delta [("Adapter 1", ⟨PyVal.num 1000, PyVal.num 1500⟩)]
        [("Adapter 1", ⟨PyVal.num 5000, PyVal.num 1000⟩)] 1 =
      [("Adapter 1", { download := 0, upload := 500 })] := by
  constructor
  · intro current_stats last_stats time_delta name sp hmem
    rw [mem_calculate_speed_delta] at hmem
    obtain ⟨⟨-, -, hdt⟩, e, he, hse⟩ := hmem
    rw [speed_entry_eq_some] at hse
    obtain ⟨l, hlk, hfn, hr⟩ := hse
    rw [Prod.mk.injEq] at hr
    obtain ⟨hname, hsp⟩ := hr
    subst hname
    subst hsp
    refine ⟨?_, ?_, e.2, l, he, hlk, ?_, ?_⟩
    · dsimp only [speed_of]
      split
      · exact div_nonneg (by assumption) hdt.le
      · exact le_refl 0
    · dsimp only [speed_of]
      split
      · exact div_nonneg (by assumption) hdt.le
      · exact le_refl 0
    · intro hneg
      dsimp only [speed_of]
      rw [if_neg (not_le.mpr hneg)]
    · intro hneg
      dsimp only [speed_of]
      rw [if_neg (not_le.mpr hneg)]
  · norm_num [calculate_speed_delta, speed_entry, dictLookup, four_numeric, pyIsNumber,
      speed_of, toQ, List.filterMap]

/-- Claim C5: the Metric Sampler returns an empty map whenever dt is
nonpositive or the previous sample is empty. -/
theorem speed_delta_empty_guard (current_stats last_stats : Sample) (time_delta : ℚ)
    (h : time_delta ≤ 0 ∨ last_stats = []) :
    calculate_speed_delta current_stats last_stats time_delta = [] := by
  unfold calculate_speed_delta
  rcases h with h | h
  · rw [if_pos]
    simp [h]
  · subst h
    rfl

/-- Witness for claim C5 at dt = 0 with a nonempty previous sample. -/
theorem speed_delta_empty_guard_witness :
    calculate_speed_delta [("A", ⟨PyVal.num 1, PyVal.num 2⟩)]
      [("A", ⟨PyVal.num 1, PyVal.num 2⟩)] 0 = [] :=
  speed_delta_empty_guard _ _ 0 (Or.inl le_rfl)

/-- Claim C6: an adapter present in the current sample but absent from the
previous one is omitted from this interval, and once the current sample is
retained as the baseline, a following call whose sample still carries the
adapter (with numeric counters, over a positive dt) includes it. -/
theorem speed_delta_new_adapter :
    (∀ (current_stats last_stats : Sample) (time_delta : ℚ) (name : String) (s : Counters),
      (name, s) ∈ current_stats → dictLookup last_stats name = Option.none →
      ∀ sp : Speed, (name, sp) ∉ calculate_speed_delta current_stats last_stats time_delta) ∧
    (∀ (baseline next : Sample) (time_delta : ℚ) (name : String) (s s₂ : Counters),
      0 < time_delta → dictLookup baseline name = some s → dictLookup next name = some s₂ →
      four_numeric s₂ s = true →
      ∃ sp : Speed, (name, sp) ∈ calculate_speed_delta next baseline time_delta) := by
  constructor
  · intro current_stats last_stats time_delta name s hmem hnone sp hin
    rw [mem_calculate_speed_delta] at hin
    obtain ⟨-, e, -, hse⟩ := hin
    rw [speed_entry_eq_some] at hse
    obtain ⟨l, hlk, -, hr⟩ := hse
    rw [Prod.mk.injEq] at hr
    rw [← hr.1] at hlk
    rw [hnone] at hlk
    exact Option.noConfusion hlk
  · intro baseline next time_delta name s s₂ hdt hbase hnext hfn
    refine ⟨speed_of s₂ s time_delta, ?_⟩
    rw [mem_calculate_speed_delta]
    refine ⟨⟨dictLookup_ne_nil hbase, dictLookup_ne_nil hnext, hdt⟩,
      (name, s₂), dictLookup_mem hnext, ?_⟩
    rw [speed_entry_eq_some]
    exact ⟨s, hbase, hfn, rfl⟩

/-- Witness for claim C6 on concrete samples: the adapter B present only in
the current sample is omitted, and after B becomes part of the baseline a
following call includes it. -/
theorem speed_delta_new_adapter_witness :
    (∀ sp : Speed, ("B", sp) ∉ calculate_speed_delta
      [("A", ⟨PyVal.num 10, PyVal.num 10⟩), ("B", ⟨PyVal.num 7, PyVal.num 8⟩)]
      [("A", ⟨PyVal.num 1, PyVal.num 2⟩)] 1) ∧
    (∃ sp : Speed, ("B", sp) ∈ calculate_speed_delta
      [("B", ⟨PyVal.num 9, PyVal.num 9⟩)]
      [("A", ⟨PyVal.num 10, PyVal.num 10⟩), ("B", ⟨PyVal.num 7, PyVal.num 8⟩)] 1) :=
  ⟨speed_delta_new_adapter.1 _ _ 1 "B" ⟨PyVal.num 7, PyVal.num 8⟩
      (List.Mem.tail _ (List.Mem.head _)) rfl,
   speed_delta_new_adapter.2 _ _ 1 "B" ⟨PyVal.num 7, PyVal.num 8⟩ ⟨PyVal.num 9, PyVal.num 9⟩
      one_pos rfl rfl rfl⟩

/-- Witness for claim C1: the universal part applied to the membership
obtained from the rollover scenario. -/
theorem speed_delta_rollover_zero_witness :
    0 ≤ (Speed.mk 0 500).download ∧ 0 ≤ (Speed.mk 0 500).upload ∧
    ∃ s l, ("Adapter 1", s) ∈
        [("Adapter 1", Counters.mk (PyVal.num 1000) (PyVal.num 1500))] ∧
      dictLookup [("Adapter 1", Counters.mk (PyVal.num 5000) (PyVal.num 1000))]
        "Adapter 1" = some l ∧
      (toQ s.received - toQ l.received < 0 → (Speed.mk 0 500).download = 0) ∧
      (toQ s.sent - toQ l.sent < 0 → (Speed.mk 0 500).upload = 0) :=
  speed_delta_rollover_zero.1 _ _ 1 "Adapter 1" (Speed.mk 0 500)
    (by rw [speed_delta_rollover_zero.2]; exact List.mem_singleton.mpr rfl)

/-- Claim C2: the output decoder attempts the encodings in the fixed priority
order utf-8 strict, then the platform (oem) code page, then ascii with lossy
replacement, and returns a string for every input byte sequence and every
behaviour of the platform decoder; the single high byte 0x84 is invalid utf-8,
so it reaches the code page, and a code page decoding it to the extended
character U+00E4 makes that the result. -/
theorem safe_decode_priority_order (oem : List Nat → Option (List Char)) (bs : List Nat) :
    (∀ s, utf8_decode bs = some s → safe_decode oem bs = pyStrip s) ∧
    (utf8_decode bs = Option.none → ∀ s, oem bs = some s → safe_decode oem bs = pyStrip s) ∧
    (utf8_decode bs = Option.none → oem bs = Option.none →
      safe_decode oem bs = replacementToQmark (pyStrip (ascii_replace_decode bs))) ∧
    utf8_decode [0x84] = Option.none ∧
    (oem [0x84] = some [Char.ofNat 0xE4] → safe_decode oem [0x84] = [Char.ofNat 0xE4]) := by
  have hnil : utf8_decode [] = some [] := rfl
  have hne : ∀ {r : Option (List Char)}, utf8_decode bs = r → r = Option.none →
      ¬(bs.isEmpty = true) := by
    intro r h1 h2 hb
    rw [List.isEmpty_iff.mp hb] at h1
    rw [hnil] at h1
    rw [← h1] at h2
    exact Option.noConfusion h2
  refine ⟨?_, ?_, ?_, rfl, ?_⟩
  · intro s h
    by_cases hbs : bs.isEmpty = true
    · have hb : bs = [] := List.isEmpty_iff.mp hbs
      subst hb
      rw [hnil] at h
      have hs : s = [] := (Option.some.inj h).symm
      subst hs
      rfl
    · unfold safe_decode
      rw [if_neg hbs, h]
  · intro hu s h
    unfold safe_decode
    rw [if_neg (hne hu rfl), hu, h]
  · intro hu ho
    unfold safe_decode
    rw [if_neg (hne hu rfl), hu, ho]
  · intro h
    unfold safe_decode
    rw [if_neg (by decide), show utf8_decode [0x84] = Option.none from rfl, h]
    rfl

/-- Witness for claim C2: each priority tier exercised on concrete bytes with
a concrete code-page decoder mapping 0x84 to U+00E4: valid utf-8 decodes as
utf-8, the invalid single byte 0x84 decodes through the code page, and bytes
the code page also rejects fall back to ascii with question marks. -/
theorem safe_decode_priority_order_witness :
    safe_decode (fun b => if b = [0x84] then some [Char.ofNat 0xE4] else Option.none)
      [0x41, 0x42] = ['A', 'B'] ∧
    safe_decode (fun b => if b = [0x84] then some [Char.ofNat 0xE4] else Option.none)
      [0x84] = [Char.ofNat 0xE4] ∧
    safe_decode (fun b => if b = [0x84] then some [Char.ofNat 0xE4] else Option.none)
      [0x61, 0xFF] = ['a', '?'] :=
  ⟨(safe_decode_priority_order (fun b => if b = [0x84] then some [Char.ofNat 0xE4]
      else Option.none) [0x41, 0x42]).1 ['A', 'B'] (by decide),
   (safe_decode_priority_order (fun b => if b = [0x84] then some [Char.ofNat 0xE4]
      else Option.none) [0x84]).2.2.2.2 (by decide),
   (safe_decode_priority_order (fun b => if b = [0x84] then some [Char.ofNat 0xE4]
      else Option.none) [0x61, 0xFF]).2.2.1 (by decide) (by decide)⟩

/-- Claim C3: a missing executable yields an error naming the attempted
program; with check set and a non-zero exit, the error message prefers the
decoded stderr, falls back to decoded stdout, and is generic when both are
empty; with check unset a non-zero exit is returned as a normal completed
result carrying the exit code and raw output. -/
theorem run_system_command_failure_modes (oem : List Nat → Option (List Char))
    (command : List String) (prefixMsg : String) (check : Bool) (timeout : Nat)
    (rc : Int) (out err : List Nat) :
    (∃ e, run_system_command oem command prefixMsg check timeout ProcessOutcome.fileNotFound =
        Except.error e ∧ (command.headD "").data <:+: e.message.data) ∧
    (rc ≠ 0 → String.mk (safe_decode oem err) ≠ "" →
      run_system_command oem command prefixMsg true timeout (ProcessOutcome.completed rc out err) =
        Except.error ⟨prefixMsg ++ ": " ++ String.mk (safe_decode oem err), Option.none⟩) ∧
    (rc ≠ 0 → String.mk (safe_decode oem err) = "" → String.mk (safe_decode oem out) ≠ "" →
      run_system_command oem command prefixMsg true timeout (ProcessOutcome.completed rc out err) =
        Except.error ⟨prefixMsg ++ ": " ++ String.mk (safe_decode oem out), Option.none⟩) ∧
    (rc ≠ 0 → String.mk (safe_decode oem err) = "" → String.mk (safe_decode oem out) = "" →
      run_system_command oem command prefixMsg true timeout (ProcessOutcome.completed rc out err) =
        Except.error ⟨prefixMsg ++ ": " ++ "An unknown error occurred.", Option.none⟩) ∧
    (check = false →
      run_system_command oem command prefixMsg check timeout (ProcessOutcome.completed rc out err) =
        Except.ok ⟨command, rc, out, err⟩) := by
  refine ⟨?_, ?_, ?_, ?_, ?_⟩
  · refine ⟨⟨"Command \x27" ++ command.headD "" ++
      "\x27 not found. Is it in the system\x27s PATH?", Option.none⟩, rfl, ?_⟩
    refine ⟨("Command \x27").data, ("\x27 not found. Is it in the system\x27s PATH?").data, ?_⟩
    rw [String.data_append, String.data_append]
  · intro hrc hne
    simp only [run_system_command]
    rw [if_pos ⟨trivial, hrc⟩, if_pos hne]
  · intro hrc he ho
    simp only [run_system_command]
    rw [if_pos ⟨trivial, hrc⟩, if_neg (not_not_intro he), if_pos ho]
  · intro hrc he ho
    simp only [run_system_command]
    rw [if_pos ⟨trivial, hrc⟩, if_neg (not_not_intro he), if_neg (not_not_intro ho)]
  · intro hc
    subst hc
    simp only [run_system_command]
    rw [if_neg (fun h => Bool.false_ne_true h.1)]

/-- The byte string of an ascii text, for concrete test inputs. -/
def asciiBytes (s : String) : List Nat := s.data.map Char.toNat

/-- Witness for claim C3 on the concrete inputs of the repository test suite:
stderr preferred, stdout fallback, generic fallback, check unset, and the
missing executable named in the error. -/
theorem run_system_command_failure_modes_witness :
    (run_system_command (fun _ => Option.none) ["failing_cmd"] "Test failure" true 10
        (ProcessOutcome.completed 1 (asciiBytes "some output") (asciiBytes "error details")) =
      Except.error ⟨"Test failure: error details", Option.none⟩) ∧
    (run_system_command (fun _ => Option.none) ["failing_cmd"] "Test failure" true 10
        (ProcessOutcome.completed 1 (asciiBytes "some output") []) =
      Except.error ⟨"Test failure: some output", Option.none⟩) ∧
    (run_system_command (fun _ => Option.none) ["failing_cmd"] "Test failure" true 10
        (ProcessOutcome.completed 1 [] []) =
      Except.error ⟨"Test failure: An unknown error occurred.", Option.none⟩) ∧
    (run_system_command (fun _ => Option.none) ["ping"] "Test ping" false 10
        (ProcessOutcome.completed 1 [] []) =
      Except.ok ⟨["ping"], 1, [], []⟩) ∧
    (∃ e, run_system_command (fun _ => Option.none) ["nonexistent"] "Test" true 10
        ProcessOutcome.fileNotFound =
      Except.error e ∧ ("nonexistent").data <:+: e.message.data) :=
  ⟨(run_system_command_failure_modes (fun _ => Option.none) ["failing_cmd"] "Test failure"
      true 10 1 (asciiBytes "some output") (asciiBytes "error details")).2.1
      (by decide) (by decide),
   (run_system_command_failure_modes (fun _ => Option.none) ["failing_cmd"] "Test failure"
      true 10 1 (asciiBytes "some output") []).2.2.1 (by decide) (by decide) (by decide),
   (run_system_command_failure_modes (fun _ => Option.none) ["failing_cmd"] "Test failure"
      true 10 1 [] []).2.2.2.1 (by decide) (by decide) (by decide),
   (run_system_command_failure_modes (fun _ => Option.none) ["ping"] "Test ping"
      false 10 1 [] []).2.2.2.2 rfl,
   (run_system_command_failure_modes (fun _ => Option.none) ["nonexistent"] "Test"
      true 10 1 [] []).1⟩

/-- A concrete polling-manager state with a retained sample and a zero
timestamp, used by the loop counterexamples. -/
def pm0 : PMState :=
  { lastStats := [("Wi-Fi", ⟨PyVal.num 100, PyVal.num 50⟩)]
    lastTime := 0
    isRunning := true }

/-- A concrete parsed statistics line for the Wi-Fi adapter. -/
def parsed0 : Option PyVal :=
  some (PyVal.list [PyVal.dict [("Name", PyVal.str "Wi-Fi"),
    ("ReceivedBytes", PyVal.num 300), ("SentBytes", PyVal.num 150)]])

/-- Claim C4 counterexample: on an iteration with a nonempty line, a parseable
sample, clock 5, and no selected adapter, the loop emits no event but also
does not advance its state: the retained timestamp stays 0 instead of
becoming 5 (a run of the calculation on the same inputs would set it to 5),
so the claimed state advancement does not happen. -/
theorem speed_poll_no_adapter_counterexample :
    (speed_poll_iteration pm0 "line" Option.none parsed0 5).2 = Option.none ∧
    (speed_poll_iteration pm0 "line" Option.none parsed0 5).1.lastTime = 0 ∧
    ¬((speed_poll_iteration pm0 "line" Option.none parsed0 5).1.lastTime = 5) ∧
    (calculate_current_speeds pm0 parsed0 5).1.lastTime = 5 := by
  refine ⟨rfl, rfl, ?_, rfl⟩
  show ¬((0 : ℚ) = 5)
  norm_num

/-- Claim C4 amended: on every iteration of the fast speed-polling loop in
which no adapter is of interest, the loop emits no speed-updated event and
leaves its retained previous-sample and timestamp state unchanged (the whole
calculation is skipped), so the next delta after an adapter is selected is
computed against the stale baseline over the full elapsed interval. -/
theorem speed_poll_no_adapter_state_unchanged (st : PMState) (line : String)
    (parsed : Option PyVal) (now : ℚ) :
    speed_poll_iteration st line Option.none parsed now = (st, Option.none) := by
  unfold speed_poll_iteration
  by_cases h : line = ""
  · rw [if_pos h]
  · rw [if_neg h]

/-- Claim C9: when the statistics line does not parse as JSON, the
speed-calculation step returns an empty map and leaves the retained sample
and timestamp untouched, and the loop pass emits no speed-updated event
whatever the selection signal. -/
theorem parse_failure_keeps_state (st : PMState) (line : String) (sel : Option String)
    (now : ℚ) :
    calculate_current_speeds st Option.none now = (st, []) ∧
    speed_poll_iteration st line sel Option.none now = (st, Option.none) := by
  refine ⟨rfl, ?_⟩
  unfold speed_poll_iteration
  by_cases h : line = ""
  · rw [if_pos h]
  · rw [if_neg h]
    cases sel with
    | none => rfl
    | some a => rfl

/-- Claim C8 counterexample: a speed-loop iteration whose read raises is not
caught; the loop terminates with the exception instead of logging and
attempting another iteration. -/
theorem speed_loop_uncaught_exception_counterexample :
    speed_loop_run pm0 [SpeedIterInput.readRaises "boom"] =
      SpeedLoopResult.crashed "boom" pm0 := rfl

/-- Claim C8 amended: the slow diagnostics loop catches a raising fetch,
logs it, keeps running and attempts every following fetch (three raises in a
row still leave it running with a fourth fetch attempted), and its handler
never clears the running flag; the fast speed loop has no such handler, so a
raising read terminates it at once. -/
theorem poll_loop_survives_exceptions :
    (∀ (st : PollState) (outs : List FetchOutcome), st.isRunning = true →
      (poll_loop_run st outs).isRunning = true ∧
      (poll_loop_run st outs).fetchesAttempted = st.fetchesAttempted + outs.length) ∧
    (∀ (st : PollState) (m : String),
      (poll_loop_iteration st (FetchOutcome.raises m)).logs = st.logs ++ [m] ∧
      (poll_loop_iteration st (FetchOutcome.raises m)).isRunning = st.isRunning) ∧
    (∀ (st : PMState) (m : String) (rest : List SpeedIterInput), st.isRunning = true →
      speed_loop_run st (SpeedIterInput.readRaises m :: rest) =
        SpeedLoopResult.crashed m st) := by
  refine ⟨?_, ?_, ?_⟩
  · intro st outs
    induction outs generalizing st with
    | nil => intro h; exact ⟨h, rfl⟩
    | cons o rest ih =>
      intro h
      have hrun : (poll_loop_iteration st o).isRunning = true := by
        cases o <;> exact h
      have hcount : (poll_loop_iteration st o).fetchesAttempted =
          st.fetchesAttempted + 1 := by
        cases o <;> rfl
      unfold poll_loop_run
      rw [if_pos h]
      obtain ⟨h1, h2⟩ := ih (poll_loop_iteration st o) hrun
      refine ⟨h1, ?_⟩
      rw [h2, hcount, List.length_cons]
      omega
  · intro st m
    exact ⟨rfl, rfl⟩
  · intro st m rest h
    unfold speed_loop_run
    rw [if_pos h]

/-- A concrete initial slow-loop state. -/
def pollSt0 : PollState := ⟨true, false, 0, []⟩

/-- Witness for claim C8 amended: three raising fetches in a row followed by a
fourth attempt leave the slow loop running with four fetches attempted; a
raising iteration logs its error; the speed loop crashes on a raising read. -/
theorem poll_loop_survives_exceptions_witness :
    (poll_loop_run pollSt0 [FetchOutcome.raises "e1", FetchOutcome.raises "e2",
        FetchOutcome.raises "e3", FetchOutcome.ok]).isRunning = true ∧
    (poll_loop_run pollSt0 [FetchOutcome.raises "e1", FetchOutcome.raises "e2",
        FetchOutcome.raises "e3", FetchOutcome.ok]).fetchesAttempted = 4 ∧
    (poll_loop_iteration pollSt0 (FetchOutcome.raises "e1")).logs = ["e1"] ∧
    speed_loop_run pm0 [SpeedIterInput.readRaises "x", SpeedIterInput.processExited] =
      SpeedLoopResult.crashed "x" pm0 :=
  ⟨(poll_loop_survives_exceptions.1 pollSt0 _ rfl).1,
   (poll_loop_survives_exceptions.1 pollSt0 _ rfl).2,
   (poll_loop_survives_exceptions.2.1 pollSt0 "e1").1,
   poll_loop_survives_exceptions.2.2 pm0 "x" [SpeedIterInput.processExited] rfl⟩

/-- The running flag is set after any call to `start_polling_threads`. -/
theorem start_polling_threads_isRunning (st : ManagerState) :
    (start_polling_threads st).isRunning = true := by
  unfold start_polling_threads
  split
  · assumption
  · rfl

/-- A call on a running state is the identity. -/
theorem start_polling_threads_fixed (st : ManagerState) (h : st.isRunning = true) :
    start_polling_threads st = st := by
  unfold start_polling_threads
  rw [if_pos h]

/-- Claim C10: starting the polling threads is idempotent: a call while
running returns at once without spawning or changing state, a call while idle
sets the flag and spawns exactly the two loop threads, and any sequence of
calls does no more than the first one. -/
theorem start_polling_threads_idempotent (st : ManagerState) (n : Nat) :
    (st.isRunning = true → start_polling_threads st = st) ∧
    (st.isRunning = false →
      start_polling_threads st =
        { isRunning := true,
          spawned := st.spawned ++ [ThreadKind.pollLoop, ThreadKind.speedLoop] }) ∧
    start_polling_threads^[n + 1] st = start_polling_threads st := by
  refine ⟨start_polling_threads_fixed st, ?_, ?_⟩
  · intro h
    unfold start_polling_threads
    rw [if_neg (by rw [h]; exact Bool.false_ne_true)]
  · induction n with
    | zero => rfl
    | succ n ih =>
      rw [Function.iterate_succ_apply', ih,
        start_polling_threads_fixed _ (start_polling_threads_isRunning st)]

/-- Witness for claim C10: a call on a running state changes nothing, a call
on an idle state spawns the two loop threads, and three calls equal one. -/
theorem start_polling_threads_idempotent_witness :
    (start_polling_threads ⟨true, [ThreadKind.pollLoop, ThreadKind.speedLoop]⟩ =
      ⟨true, [ThreadKind.pollLoop, ThreadKind.speedLoop]⟩) ∧
    (start_polling_threads ⟨false, []⟩ =
      ⟨true, [ThreadKind.pollLoop, ThreadKind.speedLoop]⟩) ∧
    start_polling_threads^[3] ⟨false, []⟩ = start_polling_threads ⟨false, []⟩ :=
  ⟨(start_polling_threads_idempotent ⟨true, [ThreadKind.pollLoop, ThreadKind.speedLoop]⟩ 0).1
      rfl,
   (start_polling_threads_idempotent ⟨false, []⟩ 0).2.1 rfl,
   (start_polling_threads_idempotent ⟨false, []⟩ 2).2.2⟩

end NetPilot
